import Mathlib

/-!
Verification of the CliBridge MCP server core (the `sendCommand` command
channel of the MCP server and the input-validation module
`lib/validation.js`), shallowly embedded in Lean.

JavaScript strings are modelled as Lean `String`s (the inputs relevant to
the properties below are ASCII, where JS `.length` in UTF-16 code units
coincides with `String.length` in code points).  JS values produced by
`JSON.parse` are modelled by the inductive `Json` type.  Functions that can
throw in JS but whose exceptions are caught by the code under scrutiny are
modelled with `Except`/`Option` results, mirroring the `try`/`catch`
structure of the source.
-/

namespace CliBridge

/-! ## Character classes used by the validation regexes -/

/-- Character class `[a-z]`. -/
def isLowerAZ (c : Char) : Bool := 'a' ≤ c && c ≤ 'z'

/-- Character class `[A-Z]`. -/
def isUpperAZ (c : Char) : Bool := 'A' ≤ c && c ≤ 'Z'

/-- Character class `[A-Za-z]`. -/
def isLetterAZ (c : Char) : Bool := isLowerAZ c || isUpperAZ c

/-- Character class `[0-9]`. -/
def isDigit09 (c : Char) : Bool := '0' ≤ c && c ≤ '9'

/-- Character class `[A-Za-z0-9]`. -/
def isAlnum (c : Char) : Bool := isLetterAZ c || isDigit09 c

/-- The character class of `DANGEROUS_CHARS = /[\x00-\x1f\x7f`$\x7b\x7d]/`
(control characters, DEL, backquote 0x60, dollar 0x24, and the two curly
braces 0x7b/0x7d). -/
def isDangerousChar (c : Char) : Bool :=
  c.toNat ≤ 0x1f || c.toNat == 0x7f ||
  c.toNat == 0x60 || c.toNat == 0x24 || c.toNat == 0x7b || c.toNat == 0x7d

/-- Models `DANGEROUS_CHARS.test s`: the regex has no anchors, so it tests
whether any character of `s` is in the class. -/
def hasDangerousChar (s : String) : Bool := s.data.any isDangerousChar

/-- The class of `/[\x00-\x08\x0b\x0c\x0e-\x1f\x7f]/` used by
`validateExpression`: control characters except tab (0x09), newline (0x0a)
and carriage return (0x0d). -/
def isExprControlChar (c : Char) : Bool :=
  c.toNat ≤ 0x08 || c.toNat == 0x0b || c.toNat == 0x0c ||
  (0x0e ≤ c.toNat && c.toNat ≤ 0x1f) || c.toNat == 0x7f

/-! ## The validation grammars

`IDENTIFIER_PATTERN = /^[A-Za-z][A-Za-z0-9]*(\.[A-Za-z][A-Za-z0-9]*)*$/`,
`UNARY_SELECTOR_PATTERN = /^[a-z][a-zA-Z0-9]*$/`,
`BINARY_SELECTOR_PATTERN = /^[+\-*\/\\~<>=@%|&?!,]+$/`,
`KEYWORD_SELECTOR_PATTERN = /^([a-z][a-zA-Z0-9]*:)+$/`,
server names: `/^[a-zA-Z][a-zA-Z0-9_-]*$/`,
each transcribed as a total matcher on the character list. -/

/-- Matches `[A-Za-z0-9]*(\.[A-Za-z][A-Za-z0-9]*)*` (the part of
`IDENTIFIER_PATTERN` after its leading letter). -/
def identTail : List Char → Bool
  | [] => true
  | '.' :: c :: cs => isLetterAZ c && identTail cs
  | c :: cs => isAlnum c && identTail cs

/-- Full-string match of `IDENTIFIER_PATTERN`. -/
def matchesIdentifier : List Char → Bool
  | [] => false
  | c :: cs => isLetterAZ c && identTail cs

/-- Full-string match of `UNARY_SELECTOR_PATTERN`. -/
def matchesUnary : List Char → Bool
  | [] => false
  | c :: cs => isLowerAZ c && cs.all isAlnum

/-- The binary-selector symbol set `+ - * / \ ~ < > = @ % | & ? ! ,`. -/
def binaryChars : List Char :=
  ['+', '-', '*', '/', '\\', '~', '<', '>', '=', '@', '%', '|', '&', '?', '!', ',']

/-- Full-string match of `BINARY_SELECTOR_PATTERN` (one or more symbol
characters). -/
def matchesBinary (l : List Char) : Bool :=
  !l.isEmpty && l.all (binaryChars.contains ·)

/-- Matches `[a-zA-Z0-9]*:([a-z][a-zA-Z0-9]*:)*` (the part of
`KEYWORD_SELECTOR_PATTERN` after the leading lowercase letter of its first
keyword). -/
def keywordTail : List Char → Bool
  | [] => false
  | [':'] => true
  | ':' :: c :: cs => isLowerAZ c && keywordTail cs
  | c :: cs => isAlnum c && keywordTail cs

/-- Full-string match of `KEYWORD_SELECTOR_PATTERN`. -/
def matchesKeyword : List Char → Bool
  | [] => false
  | c :: cs => isLowerAZ c && keywordTail cs

/-- Full-string match of the server-name pattern `/^[a-zA-Z][a-zA-Z0-9_-]*$/`. -/
def matchesServerName : List Char → Bool
  | [] => false
  | c :: cs => isLetterAZ c && cs.all (fun d => isAlnum d || d == '_' || d == '-')

/-! ## Validation results and validators (lib/validation.js) -/

/-- Either `{valid: true}` or `{valid: false, error}`. -/
inductive ValidationResult where
  | valid
  | invalid (error : String)

/-- Constant `MAX_INPUT_LENGTH`. -/
def MAX_INPUT_LENGTH : Nat := 1000

/-- Embedding of `validateClassName` (for string inputs; the `typeof` guard for
non-string values is outside the embedded domain). -/
def validateClassName (name : String) : ValidationResult :=
  if name.length = 0 then .invalid "Class name cannot be empty"
  else if name.length > MAX_INPUT_LENGTH then
    .invalid ("Class name exceeds maximum length of " ++ toString MAX_INPUT_LENGTH)
  else if hasDangerousChar name then .invalid "Class name contains invalid characters"
  else if !matchesIdentifier name.data then
    .invalid "Class name must start with a letter and contain only letters, digits, or dots"
  else .valid

/-- Embedding of `validateSelector`. -/
def validateSelector (selector : String) : ValidationResult :=
  if selector.length = 0 then .invalid "Selector cannot be empty"
  else if selector.length > MAX_INPUT_LENGTH then
    .invalid ("Selector exceeds maximum length of " ++ toString MAX_INPUT_LENGTH)
  else if hasDangerousChar selector then .invalid "Selector contains invalid characters"
  else if !(matchesUnary selector.data || matchesBinary selector.data
      || matchesKeyword selector.data) then
    .invalid "Invalid selector format. Must be unary (e.g., size), binary (e.g., +), or keyword (e.g., at:put:)"
  else .valid

/-- Embedding of `validatePattern`. -/
def validatePattern (pattern : String) : ValidationResult :=
  if pattern.length > MAX_INPUT_LENGTH then
    .invalid ("Pattern exceeds maximum length of " ++ toString MAX_INPUT_LENGTH)
  else if pattern.length = 0 ∨ pattern = "*" then .valid
  else if hasDangerousChar pattern then .invalid "Pattern contains invalid characters"
  else .valid

/-- Embedding of `validateExpression`. -/
def validateExpression (expression : String) : ValidationResult :=
  if expression.length = 0 then .invalid "Expression cannot be empty"
  else if expression.length > MAX_INPUT_LENGTH then
    .invalid ("Expression exceeds maximum length of " ++ toString MAX_INPUT_LENGTH)
  else if expression.data.any isExprControlChar then
    .invalid "Expression contains invalid control characters"
  else .valid

/-- Constant `MAX_SOURCE_LENGTH` (local to `validateSource`). -/
def MAX_SOURCE_LENGTH : Nat := 100000

/-- Embedding of `validateSource`. -/
def validateSource (source : String) : ValidationResult :=
  if source.length = 0 then .invalid "Source cannot be empty"
  else if source.length > MAX_SOURCE_LENGTH then
    .invalid ("Source exceeds maximum length of " ++ toString MAX_SOURCE_LENGTH)
  else if source.data.contains (Char.ofNat 0) then .invalid "Source contains null bytes"
  else .valid

/-- Embedding of `validateServerName`; `none` models both `undefined` and `null`
(explicitly valid: the default server is used). -/
def validateServerName : Option String → ValidationResult
  | none => .valid
  | some name =>
    if name.length = 0 then .invalid "Server name cannot be empty string"
    else if name.length > 100 then .invalid "Server name exceeds maximum length"
    else if hasDangerousChar name then .invalid "Server name contains invalid characters"
    else if !matchesServerName name.data then
      .invalid "Server name must start with a letter and contain only letters, digits, underscores, or hyphens"
    else .valid

/-! ## validatePort

`validatePort` accepts a JS value that may be a number or a numeric string:
`const portNum = typeof port === 'string' ? parseInt(port, 10) : port;`.
Finite JS numbers are modelled as rationals (every finite double is a
rational; IEEE rounding is irrelevant here since no arithmetic is
performed); NaN and values of other types get their own constructors so the
`typeof`/`isNaN` guards can be transcribed. -/

/-- A caller-supplied value reaching `validatePort`. -/
inductive PortInput where
  | num (q : ℚ)      -- a finite JS number
  | nan              -- the JS number NaN (also ±Infinity behave like a
                     -- non-integer for `Number.isInteger`; claims use only NaN)
  | str (s : String) -- a JS string
  | nonNumber        -- any value whose typeof is neither 'number' nor 'string'

/-- The whitespace skipped by `parseInt` (JS WhiteSpace and LineTerminator;
the ASCII members plus NBSP and BOM). -/
def isJsWhitespace (c : Char) : Bool :=
  c == ' ' || c == '\t' || c == '\n' || c == '\r' ||
  c.toNat == 0x0b || c.toNat == 0x0c || c.toNat == 0xa0 || c.toNat == 0xfeff

/-- Model of `parseInt(s, 10)`: skip leading whitespace, read an optional sign and
then the longest prefix of decimal digits, ignoring everything after it;
`none` models NaN (no digits found). -/
def jsParseInt (s : String) : Option Int :=
  let l := s.data.dropWhile isJsWhitespace
  let signAndRest : Int × List Char :=
    match l with
    | '-' :: rest => (-1, rest)
    | '+' :: rest => (1, rest)
    | _ => (1, l)
  let ds := signAndRest.2.takeWhile isDigit09
  if ds.isEmpty then none
  else some (signAndRest.1 * ds.foldl (fun a c => a * 10 + ((c.toNat : Int) - ('0'.toNat : Int))) 0)

/-- The intermediate `portNum` value of `validatePort`. -/
inductive JsNumber where
  | finite (q : ℚ)
  | nan
  | notNumber  -- typeof portNum !== 'number'

/-- Computes `typeof port === 'string' ? parseInt(port, 10) : port`. -/
def toPortNum : PortInput → JsNumber
  | .num q => .finite q
  | .nan => .nan
  | .str s =>
    match jsParseInt s with
    | some n => .finite (n : ℚ)
    | none => .nan
  | .nonNumber => .notNumber

/-- Embedding of `validatePort`. -/
def validatePort (port : PortInput) : ValidationResult :=
  match toPortNum port with
  | .notNumber => .invalid "Port must be a number"
  | .nan => .invalid "Port must be a number"
  | .finite q =>
    if q.den ≠ 1 then .invalid "Port must be an integer"
    else if q < 1 ∨ q > 65535 then .invalid "Port must be between 1 and 65535"
    else .valid

/-! ## JSON values and a model of `JSON.parse`

`Json` models the values `JSON.parse` can return.  Numbers are modelled as
exact rationals (the claims below never inspect numeric payloads, so IEEE
double rounding is not modelled). -/

inductive Json where
  | null
  | bool (b : Bool)
  | num (q : ℚ)
  | str (s : String)
  | arr (elems : List Json)
  | obj (fields : List (String × Json))

/-- JS property read `j[k]` for the object case; `none` models `undefined`.
JSON.parse keeps the last of duplicate keys, so the last binding wins. -/
def lookupField (k : String) : List (String × Json) → Option Json
  | [] => none
  | (k', v) :: rest =>
    match lookupField k rest with
    | some r => some r
    | none => if k' = k then some v else none

/-- JS property read `j.k` on any non-null value (`undefined` for
non-objects and absent keys).  Reading a property of `null` throws in JS;
the one place the channel does that is modelled explicitly at its call
site. -/
def Json.getField (j : Json) (k : String) : Option Json :=
  match j with
  | .obj fields => lookupField k fields
  | _ => none

/-- JSON insignificant whitespace. -/
def isJsonWs (c : Char) : Bool := c == ' ' || c == '\t' || c == '\n' || c == '\r'

/-- Value of a hexadecimal digit, for `\uXXXX` escapes. -/
def hexVal (c : Char) : Option Nat :=
  let n := c.toNat
  if 0x30 ≤ n && n ≤ 0x39 then some (n - 0x30)
  else if 0x61 ≤ n && n ≤ 0x66 then some (n - 0x57)
  else if 0x41 ≤ n && n ≤ 0x46 then some (n - 0x37)
  else none

/-- Single-character JSON string escapes. -/
def escChar (c : Char) : Option Char :=
  match c with
  | '"' => some '"'
  | '\\' => some '\\'
  | '/' => some '/'
  | 'b' => some (Char.ofNat 0x08)
  | 'f' => some (Char.ofNat 0x0c)
  | 'n' => some '\n'
  | 'r' => some '\r'
  | 't' => some '\t'
  | _ => none

/-- Body of a JSON string after the opening quote: returns the decoded
characters and the input remaining after the closing quote. -/
def parseStringBody (fuel : Nat) (l : List Char) : Option (List Char × List Char) :=
  match fuel with
  | 0 => none
  | fuel + 1 =>
    match l with
    | [] => none
    | '"' :: rest => some ([], rest)
    | '\\' :: 'u' :: h1 :: h2 :: h3 :: h4 :: rest =>
      match hexVal h1, hexVal h2, hexVal h3, hexVal h4 with
      | some a, some b, some c, some d =>
        (parseStringBody fuel rest).map
          (fun r => (Char.ofNat (((a * 16 + b) * 16 + c) * 16 + d) :: r.1, r.2))
      | _, _, _, _ => none
    | '\\' :: e :: rest =>
      match escChar e with
      | some c => (parseStringBody fuel rest).map (fun r => (c :: r.1, r.2))
      | none => none
    | c :: rest =>
      if c.toNat ≤ 0x1f then none  -- raw control characters are invalid in JSON strings
      else (parseStringBody fuel rest).map (fun r => (c :: r.1, r.2))

/-- Digits to a natural number. -/
def digitsToNat (ds : List Char) : Nat :=
  ds.foldl (fun a c => a * 10 + (c.toNat - '0'.toNat)) 0

/-- A JSON number literal: `-? int frac? exp?`, as an exact rational. -/
def parseNumber (l : List Char) : Option (ℚ × List Char) :=
  let signAndRest : ℚ × List Char :=
    match l with
    | '-' :: rest => (-1, rest)
    | _ => (1, l)
  let ds := signAndRest.2.takeWhile isDigit09
  if ds.isEmpty then none
  else
    let afterInt := signAndRest.2.dropWhile isDigit09
    let intPart : ℚ := (digitsToNat ds : ℚ)
    let fracAndRest : Option (ℚ × List Char) :=
      match afterInt with
      | '.' :: rest =>
        let fs := rest.takeWhile isDigit09
        if fs.isEmpty then none
        else some (intPart + (digitsToNat fs : ℚ) / ((10 : ℚ) ^ fs.length),
                   rest.dropWhile isDigit09)
      | _ => some (intPart, afterInt)
    match fracAndRest with
    | none => none
    | some (mag, afterFrac) =>
      match afterFrac with
      | 'e' :: rest => parseExponent (signAndRest.1 * mag) rest
      | 'E' :: rest => parseExponent (signAndRest.1 * mag) rest
      | _ => some (signAndRest.1 * mag, afterFrac)
where
  /-- The exponent part after `e`/`E`. -/
  parseExponent (mag : ℚ) (l : List Char) : Option (ℚ × List Char) :=
    let signAndRest : Int × List Char :=
      match l with
      | '-' :: rest => (-1, rest)
      | '+' :: rest => (1, rest)
      | _ => (1, l)
    let es := signAndRest.2.takeWhile isDigit09
    if es.isEmpty then none
    else some (mag * (10 : ℚ) ^ (signAndRest.1 * (digitsToNat es : Int)),
               signAndRest.2.dropWhile isDigit09)

mutual

/-- A JSON value, starting at the first non-consumed character (callers
skip leading whitespace). -/
def parseValue (fuel : Nat) (l : List Char) : Option (Json × List Char) :=
  match fuel with
  | 0 => none
  | fuel + 1 =>
    match l with
    | 'n' :: 'u' :: 'l' :: 'l' :: rest => some (.null, rest)
    | 't' :: 'r' :: 'u' :: 'e' :: rest => some (.bool true, rest)
    | 'f' :: 'a' :: 'l' :: 's' :: 'e' :: rest => some (.bool false, rest)
    | '"' :: rest => (parseStringBody fuel rest).map (fun r => (.str (String.mk r.1), r.2))
    | '[' :: rest =>
      match (rest.dropWhile isJsonWs) with
      | ']' :: rest' => some (.arr [], rest')
      | rest' => (parseElems fuel rest').map (fun r => (.arr r.1, r.2))
    | c :: _ =>
      if c.toNat == 0x7b then
        match ((l.drop 1).dropWhile isJsonWs) with
        | c' :: rest' =>
          if c'.toNat == 0x7d then some (.obj [], rest')
          else (parseMembers fuel (c' :: rest')).map (fun r => (.obj r.1, r.2))
        | [] => none
      else
        (parseNumber l).map (fun r => (.num r.1, r.2))
    | [] => none

/-- One or more comma-separated array elements, then `]`. -/
def parseElems (fuel : Nat) (l : List Char) : Option (List Json × List Char) :=
  match fuel with
  | 0 => none
  | fuel + 1 =>
    match parseValue fuel (l.dropWhile isJsonWs) with
    | none => none
    | some (v, rest) =>
      match rest.dropWhile isJsonWs with
      | ',' :: rest' => (parseElems fuel rest').map (fun r => (v :: r.1, r.2))
      | ']' :: rest' => some ([v], rest')
      | _ => none

/-- One or more comma-separated `"key": value` members, then the closing
brace. -/
def parseMembers (fuel : Nat) (l : List Char) : Option (List (String × Json) × List Char) :=
  match fuel with
  | 0 => none
  | fuel + 1 =>
    match l.dropWhile isJsonWs with
    | '"' :: rest =>
      match parseStringBody fuel rest with
      | none => none
      | some (key, rest₁) =>
        match rest₁.dropWhile isJsonWs with
        | ':' :: rest₂ =>
          match parseValue fuel (rest₂.dropWhile isJsonWs) with
          | none => none
          | some (v, rest₃) =>
            match rest₃.dropWhile isJsonWs with
            | ',' :: rest₄ =>
              (parseMembers fuel rest₄).map (fun r => ((String.mk key, v) :: r.1, r.2))
            | c :: rest₄ =>
              if c.toNat == 0x7d then some ([(String.mk key, v)], rest₄) else none
            | [] => none
        | _ => none
    | _ => none

end

/-- Model of `JSON.parse`: parse one value and require only whitespace after it;
`none` models a thrown `SyntaxError`. -/
def jsonParse (s : String) : Option Json :=
  match parseValue (4 * (s.data.length + 1)) (s.data.dropWhile isJsonWs) with
  | some (j, rest) => if (rest.dropWhile isJsonWs).isEmpty then some j else none
  | none => none

/-! ## Server configuration and `getServer` -/

/-- One entry of `config.servers` (a JSON config object
`{host, port, apiKey?}`; an absent or `null` apiKey is `none`). -/
structure ServerEntry where
  host : String
  port : Int
  apiKey : Option String

/-- The loaded configuration `{servers, default}`.  Server names are the
object's keys in insertion order (`Object.keys` order for string keys).
`defaultName` models `config.default`, `none` when absent. -/
structure Config where
  servers : List (String × ServerEntry)
  defaultName : Option String

/-- JS `a || b` on an optional string: `undefined` and `''` are falsy. -/
def jsOrStr (a b : Option String) : Option String :=
  match a with
  | some s => if s = "" then b else some s
  | none => b

/-- First-match lookup in the server table (config keys are unique:
`JSON.parse` collapses duplicate keys before `getServer` runs). -/
def lookupServer (k : String) : List (String × ServerEntry) → Option ServerEntry
  | [] => none
  | (k', v) :: rest => if k' = k then some v else lookupServer k rest

/-- Computes `name || config.default || Object.keys(config.servers)[0]`.  When all
three are missing, the JS property access coerces `undefined` to the
string `"undefined"`. -/
def resolvedServerName (config : Config) (name : Option String) : String :=
  (jsOrStr name (jsOrStr config.defaultName (config.servers.head?.map (·.1)))).getD "undefined"

/-- Computes `Object.keys(config.servers).join(', ')`. -/
def availableNames (config : Config) : String :=
  String.intercalate ", " (config.servers.map (·.1))

/-- The descriptor `{name: serverName, ...server}` returned by `getServer`. -/
structure ResolvedServer where
  name : String
  host : String
  port : Int
  apiKey : Option String

/-- Embedding of `getServer`: `.error` models the thrown `Error` (its message), caught
by `sendCommand`. -/
def getServer (config : Config) (name : Option String) : Except String ResolvedServer :=
  let serverName := resolvedServerName config name
  match lookupServer serverName config.servers with
  | some s => .ok { name := serverName, host := s.host, port := s.port, apiKey := s.apiKey }
  | none => .error ("Unknown server: " ++ serverName ++ ". Available: " ++ availableNames config)

/-! ## The command channel (`sendCommand`) -/

/-- Computes `server.apiKey ? 'AUTH:' + server.apiKey + ' ' : ''` — the empty string
is falsy in JS, so an empty key yields no prefix. -/
def authPrefix (apiKey : Option String) : String :=
  match apiKey with
  | some k => if k = "" then "" else "AUTH:" ++ k ++ " "
  | none => ""

/-- The single line written to the socket on `connect`:
`prefix + command + '\n'`. -/
def commandString (server : ResolvedServer) (command : String) : String :=
  authPrefix server.apiKey ++ command ++ "\n"

/-- Model of `String.prototype.trim` on the character list (leading and trailing
JS whitespace removed). -/
def trimChars (l : List Char) : List Char :=
  ((l.dropWhile isJsWhitespace).reverse.dropWhile isJsWhitespace).reverse

/-- Computes `s.split('\n')[0]` — the characters up to the first newline. -/
def firstLineChars (l : List Char) : List Char := l.takeWhile (· != '\n')

/-- Computes `JSON.parse(response.trim().split('\n')[0])` as an `Option`. -/
def parsedFirstLine (response : String) : Option Json :=
  jsonParse (String.mk (firstLineChars (trimChars response.data)))

/-- A `{status: 'error', message}` object literal. -/
def errorEnvelope (message : String) : Json :=
  .obj [("status", .str "error"), ("message", .str message)]

/-- The text of the JS engine's `SyntaxError`/`TypeError` message
interpolated into `'Invalid JSON response: ' + e.message`.  The text is
engine-specific; it is abstracted as a fixed placeholder, and no claim
inspects it. -/
def jsonErrorText : String := "Unexpected token"

/-- The envelope resolved when parsing (or the subsequent property access
on a `null` result) throws inside the `end` handler. -/
def invalidJsonEnvelope : Json :=
  errorEnvelope ("Invalid JSON response: " ++ jsonErrorText)

/-- The `AUTH_REQUIRED` rewrite message. -/
def authRequiredMessage (name : String) : String :=
  "Authentication required for '" ++ name ++ "'. Add apiKey to your config."

/-- The `AUTH_FAILED` rewrite message. -/
def authFailedMessage (name : String) : String :=
  "Invalid API key for '" ++ name ++ "'. Check your configuration."

/-- JS strict equality of a property read against a string literal:
`o === 'v'` is true exactly when the value is that string. -/
def isStrVal (o : Option Json) (v : String) : Bool :=
  match o with
  | some (.str s) => s == v
  | _ => false

/-- The auth-error rewriting applied to the parsed result, transcribing the
`if (result.status === 'error' && result.code === 'AUTH_REQUIRED') … else
if (… 'AUTH_FAILED') … else resolve(result)` chain: the two recognised
auth codes produce rewritten error envelopes; everything else is resolved
unchanged. -/
def rewriteAuth (server : ResolvedServer) (result : Json) : Json :=
  if isStrVal (result.getField "status") "error"
      && isStrVal (result.getField "code") "AUTH_REQUIRED" then
    errorEnvelope (authRequiredMessage server.name)
  else if isStrVal (result.getField "status") "error"
      && isStrVal (result.getField "code") "AUTH_FAILED" then
    errorEnvelope (authFailedMessage server.name)
  else result

/-- The `end` handler: parse the first line of the trimmed buffer; a parse
failure — or the `TypeError` thrown by `result.status` when the line parses
to `null` — is caught by the same `try`/`catch` and resolves the invalid-
JSON envelope. -/
def handleEnd (server : ResolvedServer) (response : String) : Json :=
  match parsedFirstLine response with
  | none => invalidJsonEnvelope
  | some .null => invalidJsonEnvelope
  | some result => rewriteAuth server result

/-- The single terminal transport event of one invocation (the socket state
machine guarantees exactly one of these fires). -/
inductive TransportEvent where
  | ended (response : String)              -- connect → data* → clean end
  | timedOut                               -- the 30s timeout fired
  | errored (code : String) (message : String)  -- an 'error' event

/-- The timeout message `Connection timed out to host:port`. -/
def timeoutMessage (server : ResolvedServer) : String :=
  "Connection timed out to " ++ server.host ++ ":" ++ toString server.port

/-- The ECONNREFUSED message. -/
def refusedMessage (server : ResolvedServer) : String :=
  "Connection refused to " ++ server.name ++ " (" ++ server.host ++ ":"
    ++ toString server.port ++ "). Is CliBridge running?"

/-- Embedding of `sendCommand(command, imageName)` as a function of the terminal
transport event.  Every branch of the source resolves (never rejects); the
embedding is correspondingly total.  The `command` argument only affects
the written line (see `commandString`), not the resolution, so it is not a
parameter here. -/
def sendCommand (config : Config) (imageName : Option String) (ev : TransportEvent) : Json :=
  match getServer config imageName with
  | .error msg => errorEnvelope msg
  | .ok server =>
    match ev with
    | .ended response => handleEnd server response
    | .timedOut => errorEnvelope (timeoutMessage server)
    | .errored code message =>
      if code = "ECONNREFUSED" then errorEnvelope (refusedMessage server)
      else errorEnvelope ("Connection error: " ++ message)

/-- Whether a `new net.Socket()` is created / a connection attempted: the
code reaches socket creation only after `getServer` returns. -/
def socketCreated (config : Config) (imageName : Option String) : Bool :=
  match getServer config imageName with
  | .ok _ => true
  | .error _ => false

/-! ## Command builders used by the tool handlers -/

/-- The `eval_smalltalk` tool's command. -/
def evalCommand (expression : String) : String := "EVAL " ++ expression

/-- The `class_info` tool's command. -/
def classCommand (name : String) : String := "CLASS " ++ name

/-- The `source` tool's command. -/
def sourceCommand (name selector : String) : String :=
  "SOURCE " ++ name ++ " " ++ selector

/-- The `classes` tool's command. -/
def classesCommand (pattern : String) : String := "CLASSES " ++ pattern

/-! ## Observables used in the statements -/

/-- Whether a string contains a newline character at all. -/
def containsNewline (s : String) : Bool := s.data.contains '\n'

/-- Whether a string contains a newline before its final character (an
embedded newline, as opposed to the single terminating one). -/
def embeddedNewline (s : String) : Bool := s.data.dropLast.contains '\n'

/-- The resolved value is a well-formed error envelope: `status` is the
string `'error'` and `message` is a string. -/
def isErrorEnvelope (j : Json) : Bool :=
  (match j.getField "status" with
   | some (.str "error") => true
   | _ => false) &&
  (match j.getField "message" with
   | some (.str _) => true
   | _ => false)

/-- Substring containment, on the underlying character lists. -/
def strContains (hay needle : String) : Prop :=
  ∃ p q : List Char, hay.data = p ++ needle.data ++ q

/-! ## Concrete fixtures -/

/-- A two-server configuration with only `dev` and `prod`. -/
def devProdConfig : Config :=
  { servers := [("dev", { host := "localhost", port := 9999, apiKey := none }),
                ("prod", { host := "10.0.0.5", port := 9999, apiKey := some "k" })],
    defaultName := some "dev" }

/-- The resolved descriptor of `devProdConfig`'s `dev` server. -/
def devServer : ResolvedServer :=
  { name := "dev", host := "localhost", port := 9999, apiKey := none }

/-- The message produced for the unknown name `staging` against
`devProdConfig`. -/
def unknownStagingMessage : String := "Unknown server: staging. Available: dev, prod"

/-- The first buffered response line of the multi-line parsing scenario. -/
def okFirstLine : String := "\x7b\"status\":\"ok\",\"data\":\"first\"\x7d"

/-- The parse of `okFirstLine`. -/
def okEnvelopeJson : Json := .obj [("status", .str "ok"), ("data", .str "first")]

/-- A backend `AUTH_REQUIRED` error envelope. -/
def authReqJson : Json :=
  .obj [("status", .str "error"), ("message", .str "auth required"),
        ("code", .str "AUTH_REQUIRED")]

/-- A backend `AUTH_FAILED` error envelope. -/
def authFailJson : Json :=
  .obj [("status", .str "error"), ("message", .str "bad key"),
        ("code", .str "AUTH_FAILED")]

/-! ## Helper lemmas -/

theorem dataAppend (a b : String) : (a ++ b).data = a.data ++ b.data := rfl

theorem contains_append (a b : List Char) (c : Char) :
    (a ++ b).contains c = (a.contains c || b.contains c) := by
  induction a with
  | nil => simp
  | cons x xs ih => by_cases h : c = x <;> simp [List.contains_cons, h, ih, Bool.or_assoc]

theorem strContains_intro (pre post hay needle : String) (h : pre ++ needle ++ post = hay) :
    strContains hay needle :=
  ⟨pre.data, post.data, by rw [← h, dataAppend, dataAppend]⟩

theorem hasDangerous_of_newline (s : String) (h : containsNewline s = true) :
    hasDangerousChar s = true := by
  unfold containsNewline at h
  unfold hasDangerousChar
  rw [List.any_eq_true]
  exact ⟨'\n', by simpa using h, by decide⟩

theorem no_newline_of_no_dangerous (s : String) (h : hasDangerousChar s = false) :
    containsNewline s = false := by
  by_contra hn
  rw [Bool.not_eq_false] at hn
  rw [hasDangerous_of_newline s hn] at h
  exact Bool.noConfusion h

theorem validateClassName_no_dangerous (s : String) (h : validateClassName s = .valid) :
    hasDangerousChar s = false := by
  unfold validateClassName at h
  split at h
  · exact ValidationResult.noConfusion h
  · split at h
    · exact ValidationResult.noConfusion h
    · split at h
      · exact ValidationResult.noConfusion h
      · rename_i hd
        simpa using hd

theorem validateSelector_no_dangerous (s : String) (h : validateSelector s = .valid) :
    hasDangerousChar s = false := by
  unfold validateSelector at h
  split at h
  · exact ValidationResult.noConfusion h
  · split at h
    · exact ValidationResult.noConfusion h
    · split at h
      · exact ValidationResult.noConfusion h
      · rename_i hd
        simpa using hd

theorem validatePattern_no_newline (s : String) (h : validatePattern s = .valid) :
    containsNewline s = false := by
  unfold validatePattern at h
  split at h
  · exact ValidationResult.noConfusion h
  · split at h
    · rename_i hsmall
      rcases hsmall with hz | hstar
      · have hnil : s.data = [] := List.length_eq_zero.mp hz
        unfold containsNewline
        rw [hnil]
        rfl
      · rw [hstar]
        rfl
    · split at h
      · exact ValidationResult.noConfusion h
      · rename_i hd
        exact no_newline_of_no_dangerous s (by simpa using hd)

theorem validateServerName_no_dangerous (s : String) (h : validateServerName (some s) = .valid) :
    hasDangerousChar s = false := by
  by_contra hd
  rw [Bool.not_eq_false] at hd
  simp only [validateServerName, hd, if_true] at h
  repeat' split at h
  all_goals exact ValidationResult.noConfusion h

theorem containsNewline_append (a b : String) :
    containsNewline (a ++ b) = (containsNewline a || containsNewline b) := by
  unfold containsNewline
  rw [dataAppend]
  exact contains_append a.data b.data '\n'

theorem embeddedNewline_append (pre cmd : String)
    (h1 : containsNewline pre = false) (h2 : containsNewline cmd = false) :
    embeddedNewline (pre ++ cmd ++ "\n") = false := by
  unfold embeddedNewline
  rw [dataAppend, dataAppend]
  rw [show ("\n" : String).data = ['\n'] from rfl]
  rw [List.dropLast_concat]
  rw [show pre.data ++ cmd.data = (pre ++ cmd).data from (dataAppend pre cmd).symm]
  rw [show (pre ++ cmd).data.contains '\n' = containsNewline (pre ++ cmd) from rfl]
  rw [containsNewline_append, h1, h2]
  rfl

theorem authPrefix_no_newline (apiKey : Option String)
    (hk : ∀ k, apiKey = some k → containsNewline k = false) :
    containsNewline (authPrefix apiKey) = false := by
  cases apiKey with
  | none => rfl
  | some k =>
    by_cases he : k = ""
    · simp only [authPrefix, if_pos he]
      rfl
    · simp only [authPrefix, if_neg he]
      rw [show ("AUTH:" ++ k ++ " " : String) = "AUTH:" ++ (k ++ " ") from by
        rw [String.append_assoc]]
      rw [containsNewline_append, containsNewline_append]
      rw [hk k rfl]
      rfl

theorem dropWhile_shape (p : Char → Bool) (l : List Char) :
    l.dropWhile p = [] ∨ ∃ c cs, l.dropWhile p = c :: cs ∧ p c = false := by
  induction l with
  | nil => exact .inl rfl
  | cons x xs ih =>
    by_cases h : p x = true
    · rw [List.dropWhile_cons_of_pos h]
      exact ih
    · exact .inr ⟨x, xs, List.dropWhile_cons_of_neg (by simpa using h), by simpa using h⟩

/-- The first line of the trimmed buffer `a ++ '\n' :: gd` is `a`, for any
first line `a` that has no surrounding whitespace and no newline of its
own, whatever `gd` holds.  This is the "discard everything after the first
line" shape of the `end` handler. -/
theorem firstLine_trim_line (a gd : List Char)
    (hne : a ≠ [])
    (h1 : a.dropWhile isJsWhitespace = a)
    (h2 : a.reverse.dropWhile isJsWhitespace = a.reverse)
    (h3 : a.takeWhile (· != '\n') = a) :
    firstLineChars (trimChars (a ++ '\n' :: gd)) = a := by
  unfold trimChars firstLineChars
  rw [List.dropWhile_append]
  rw [h1]
  rw [if_neg (by simpa using hne)]
  rw [List.reverse_append]
  rw [show ('\n' :: gd).reverse = gd.reverse ++ ['\n'] from List.reverse_cons '\n' gd]
  rcases dropWhile_shape isJsWhitespace gd.reverse with hsh | ⟨c, cs, hsh, _⟩
  · rw [List.append_assoc, List.dropWhile_append, hsh]
    rw [if_pos (show (([] : List Char)).isEmpty = true from rfl)]
    rw [show (['\n'] ++ a.reverse).dropWhile isJsWhitespace
        = a.reverse.dropWhile isJsWhitespace from by
      rw [List.singleton_append, List.dropWhile_cons_of_pos (by decide)]]
    rw [h2, List.reverse_reverse, h3]
  · rw [List.append_assoc, List.dropWhile_append, hsh]
    rw [if_neg (by simp : ¬((c :: cs).isEmpty = true))]
    rw [List.reverse_append, List.reverse_cons, List.reverse_append]
    rw [List.reverse_reverse]
    rw [show (['\n'] : List Char).reverse = ['\n'] from rfl]
    rw [List.append_assoc]
    rw [List.takeWhile_append]
    rw [h3]
    rw [if_pos rfl]
    rw [show ((['\n'] ++ (cs.reverse ++ [c])).takeWhile (· != '\n')) = [] from by
      rw [List.singleton_append, List.takeWhile_cons_of_neg (by decide)]]
    rw [List.append_nil]

theorem isStrVal_iff (o : Option Json) (v : String) :
    isStrVal o v = true ↔ o = some (.str v) := by
  cases o with
  | none => simp [isStrVal]
  | some j => cases j <;> simp [isStrVal]

theorem validatePort_num_eq (q : ℚ) :
    validatePort (.num q) =
      if q.den ≠ 1 then .invalid "Port must be an integer"
      else if q < 1 ∨ q > 65535 then .invalid "Port must be between 1 and 65535"
      else .valid := rfl

theorem validatePort_num_iff (q : ℚ) :
    validatePort (.num q) = .valid ↔ (q.den = 1 ∧ 1 ≤ q ∧ q ≤ 65535) := by
  rw [validatePort_num_eq]
  by_cases hden : q.den = 1
  · rw [if_neg (by simpa using hden)]
    by_cases hr : q < 1 ∨ q > 65535
    · rw [if_pos hr]
      constructor
      · exact fun hbad => ValidationResult.noConfusion hbad
      · rintro ⟨-, h2, h3⟩
        rcases hr with hr | hr
        · exact absurd h2 (not_le.2 hr)
        · exact absurd h3 (not_le.2 hr)
    · rw [if_neg hr]
      rw [not_or, not_lt, not_lt] at hr
      exact ⟨fun _ => ⟨hden, hr.1, hr.2⟩, fun _ => rfl⟩
  · rw [if_pos hden]
    constructor
    · exact fun hbad => ValidationResult.noConfusion hbad
    · rintro ⟨h1, -⟩
      exact absurd h1 hden

theorem okFirstLine_data_append (g : String) :
    (okFirstLine ++ "\n" ++ g).data = okFirstLine.data ++ '\n' :: g.data := by
  rw [dataAppend, dataAppend]
  rw [show ("\n" : String).data = ['\n'] from rfl]
  rw [List.append_assoc]
  rfl

theorem parsedFirstLine_ok (g : String) :
    parsedFirstLine (okFirstLine ++ "\n" ++ g) = some okEnvelopeJson := by
  unfold parsedFirstLine
  rw [okFirstLine_data_append]
  rw [firstLine_trim_line okFirstLine.data g.data (by decide) rfl rfl rfl]
  rfl

/-! ## The claims -/

/-- Claim C1 (corrected) — counterexample to the claim as stated: the
expression `"2 + 2\n3 + 3"` is accepted by `validateExpression` (newlines
are explicitly allowed in expressions), yet the Command String that the
channel writes for the `EVAL` command built from it contains a newline
before its terminating newline. -/
theorem C1_counterexample :
    validateExpression "2 + 2\n3 + 3" = .valid ∧
    embeddedNewline (commandString devServer (evalCommand "2 + 2\n3 + 3")) = true :=
  ⟨rfl, rfl⟩

/-- Claim C1 (amended): inputs accepted by `validateClassName`,
`validateSelector`, `validatePattern` and `validateServerName` are free of
embedded newlines (their dangerous-character gate rejects all control
characters), and any command string whose command part — and configured
API key, which is config- not caller-controlled — is newline-free contains
no newline other than its single terminating one.  Validator-accepted
expressions, however, may contain newlines, so `EVAL` command lines may
carry embedded newlines. -/
theorem C1_amended :
    (∀ s : String, validateClassName s = .valid → containsNewline s = false) ∧
    (∀ s : String, validateSelector s = .valid → containsNewline s = false) ∧
    (∀ s : String, validatePattern s = .valid → containsNewline s = false) ∧
    (∀ s : String, validateServerName (some s) = .valid → containsNewline s = false) ∧
    (∀ (server : ResolvedServer) (cmd : String),
      containsNewline cmd = false →
      (∀ k, server.apiKey = some k → containsNewline k = false) →
      embeddedNewline (commandString server cmd) = false) ∧
    (∃ e : String, validateExpression e = .valid ∧
      embeddedNewline (commandString devServer (evalCommand e)) = true) := by
  refine ⟨?_, ?_, ?_, ?_, ?_, ?_⟩
  · exact fun s h => no_newline_of_no_dangerous s (validateClassName_no_dangerous s h)
  · exact fun s h => no_newline_of_no_dangerous s (validateSelector_no_dangerous s h)
  · exact fun s h => validatePattern_no_newline s h
  · exact fun s h => no_newline_of_no_dangerous s (validateServerName_no_dangerous s h)
  · intro server cmd hc hk
    exact embeddedNewline_append _ _ (authPrefix_no_newline server.apiKey hk) hc
  · exact ⟨"2 + 2\n3 + 3", rfl, rfl⟩

theorem C1_amended_witness :
    containsNewline "Core.Object" = false ∧
    embeddedNewline (commandString devServer (classCommand "Core.Object")) = false :=
  ⟨C1_amended.1 "Core.Object" rfl,
   C1_amended.2.2.2.2.1 devServer (classCommand "Core.Object") rfl
     (fun _ h => Option.noConfusion h)⟩

/-- Claim C2: `sendCommand` always resolves — the embedding is a total
function of the terminal transport event — and the result is either a
well-formed `{status: 'error', message}` envelope (which covers every
failure path: unknown server, timeout, transport error, and an
unparseable, empty or `null` first response line) or the parsed first
line passed through the auth-rewriting step. -/
theorem C2_never_raises :
    ∀ (config : Config) (imageName : Option String) (ev : TransportEvent),
      isErrorEnvelope (sendCommand config imageName ev) = true ∨
      ∃ (server : ResolvedServer) (j : Json) (buf : String),
        getServer config imageName = .ok server ∧ ev = .ended buf ∧
        parsedFirstLine buf = some j ∧ j ≠ .null ∧
        sendCommand config imageName ev = rewriteAuth server j := by
  intro config imageName ev
  cases hg : getServer config imageName with
  | error msg =>
    refine .inl ?_
    have hsend : sendCommand config imageName ev = errorEnvelope msg := by
      unfold sendCommand
      rw [hg]
    rw [hsend]
    rfl
  | ok server =>
    cases ev with
    | timedOut =>
      refine .inl ?_
      have hsend : sendCommand config imageName .timedOut
          = errorEnvelope (timeoutMessage server) := by
        unfold sendCommand
        rw [hg]
      rw [hsend]
      rfl
    | errored code m =>
      refine .inl ?_
      have hsend : sendCommand config imageName (.errored code m)
          = if code = "ECONNREFUSED" then errorEnvelope (refusedMessage server)
            else errorEnvelope ("Connection error: " ++ m) := by
        unfold sendCommand
        rw [hg]
      rw [hsend]
      by_cases hc : code = "ECONNREFUSED"
      · rw [if_pos hc]
        rfl
      · rw [if_neg hc]
        rfl
    | ended buf =>
      have hsend : sendCommand config imageName (.ended buf) = handleEnd server buf := by
        unfold sendCommand
        rw [hg]
      rw [hsend]
      unfold handleEnd
      cases hp : parsedFirstLine buf with
      | none => exact .inl rfl
      | some j =>
        cases j
        case null => exact .inl rfl
        all_goals exact .inr ⟨server, _, buf, rfl, rfl, hp, fun h => Json.noConfusion h, rfl⟩

/-- Claim C3: when `getServer` fails, `sendCommand` resolves to exactly the
thrown message — whatever transport event would have followed — and no
socket is created; for the two-server `dev`/`prod` config and the unknown
name `staging`, the message is
`Unknown server: staging. Available: dev, prod`, which contains both
required fragments. -/
theorem C3_unknown_server :
    (∀ (config : Config) (name : Option String) (msg : String) (ev : TransportEvent),
      getServer config name = .error msg →
      sendCommand config name ev = errorEnvelope msg ∧ socketCreated config name = false) ∧
    (∀ ev : TransportEvent,
      sendCommand devProdConfig (some "staging") ev = errorEnvelope unknownStagingMessage) ∧
    socketCreated devProdConfig (some "staging") = false ∧
    strContains unknownStagingMessage "Unknown server: staging" ∧
    strContains unknownStagingMessage "Available: dev, prod" := by
  refine ⟨?_, fun ev => rfl, rfl, ⟨[], ". Available: dev, prod".data, rfl⟩,
    ⟨"Unknown server: staging. ".data, [], rfl⟩⟩
  intro config name msg ev h
  constructor
  · unfold sendCommand
    rw [h]
  · unfold socketCreated
    rw [h]

theorem C3_unknown_server_witness :
    sendCommand devProdConfig (some "staging") .timedOut = errorEnvelope unknownStagingMessage ∧
    socketCreated devProdConfig (some "staging") = false :=
  C3_unknown_server.1 devProdConfig (some "staging") unknownStagingMessage .timedOut rfl

/-- Claim C4: on a clean close whose accumulated buffer is the `ok` first
line followed by a newline and arbitrary further content, `sendCommand`
resolves exactly to the parse of the first line — `{status: 'ok', data:
'first'}` — discarding everything after it. -/
theorem C4_first_line_only :
    ∀ (config : Config) (name : Option String) (server : ResolvedServer) (garbage : String),
      getServer config name = .ok server →
      sendCommand config name (.ended (okFirstLine ++ "\n" ++ garbage)) = okEnvelopeJson := by
  intro config name server g h
  unfold sendCommand
  rw [h]
  show handleEnd server (okFirstLine ++ "\n" ++ g) = okEnvelopeJson
  unfold handleEnd
  rw [parsedFirstLine_ok g]
  rfl

theorem C4_first_line_only_witness :
    sendCommand devProdConfig (some "dev") (.ended (okFirstLine ++ "\n" ++ "\x7b\"garbage\"\x7d"))
      = okEnvelopeJson :=
  C4_first_line_only devProdConfig (some "dev") devServer "\x7b\"garbage\"\x7d" rfl

/-- Claim C5: for every command, a resolved descriptor carrying an API key —
a configured, non-empty key, which is what the code's truthiness test
`server.apiKey ? … : ''` recognises as "has an API key"; the empty-string
edge case is the subject of C10 — yields a transmitted line that is
exactly `AUTH:<key> ` followed by the command and the terminating newline,
and a descriptor with no API key yields the bare command line, which
starts directly with the verb. -/
theorem C5_auth_line :
    (∀ (server : ResolvedServer) (cmd k : String), server.apiKey = some k → k ≠ "" →
      commandString server cmd = "AUTH:" ++ k ++ " " ++ cmd ++ "\n") ∧
    (∀ (server : ResolvedServer) (cmd : String), server.apiKey = none →
      commandString server cmd = cmd ++ "\n") := by
  constructor
  · intro server cmd k hk hne
    unfold commandString
    rw [hk]
    simp only [authPrefix, if_neg hne]
  · intro server cmd h
    unfold commandString
    rw [h]
    simp only [authPrefix]
    rfl

theorem C5_auth_line_witness :
    commandString { name := "prod", host := "10.0.0.5", port := 9999, apiKey := some "k" } "PING"
      = "AUTH:" ++ "k" ++ " " ++ "PING" ++ "\n" ∧
    commandString devServer "PING" = "PING" ++ "\n" :=
  ⟨C5_auth_line.1 _ "PING" "k" rfl (by decide), C5_auth_line.2 devServer "PING" rfl⟩

/-- Claim C6: a parsed `error` envelope with code `AUTH_REQUIRED` is rewritten
to a message containing `Authentication required` and `Add apiKey` and
naming the resolved server; code `AUTH_FAILED` is rewritten to a message
containing `Invalid API key` and naming the server; every parsed value
with any other status or code passes through unchanged. -/
theorem C6_auth_rewrite :
    ∀ (server : ResolvedServer) (j : Json),
      (j.getField "status" = some (.str "error") →
        j.getField "code" = some (.str "AUTH_REQUIRED") →
        rewriteAuth server j = errorEnvelope (authRequiredMessage server.name) ∧
        strContains (authRequiredMessage server.name) "Authentication required" ∧
        strContains (authRequiredMessage server.name) "Add apiKey" ∧
        strContains (authRequiredMessage server.name) server.name) ∧
      (j.getField "status" = some (.str "error") →
        j.getField "code" = some (.str "AUTH_FAILED") →
        rewriteAuth server j = errorEnvelope (authFailedMessage server.name) ∧
        strContains (authFailedMessage server.name) "Invalid API key" ∧
        strContains (authFailedMessage server.name) server.name) ∧
      (¬(j.getField "status" = some (.str "error") ∧
         (j.getField "code" = some (.str "AUTH_REQUIRED") ∨
          j.getField "code" = some (.str "AUTH_FAILED"))) →
        rewriteAuth server j = j) := by
  intro server j
  refine ⟨fun hs hc => ⟨?_, ?_, ?_, ?_⟩, fun hs hc => ⟨?_, ?_, ?_⟩, fun hn => ?_⟩
  · unfold rewriteAuth
    rw [hs, hc]
    rfl
  · refine strContains_intro ""
      (" for '" ++ server.name ++ "'. Add apiKey to your config.") _ _ ?_
    unfold authRequiredMessage
    rw [show ("Authentication required for '" : String)
        = "Authentication required" ++ " for '" from rfl]
    simp only [String.append_assoc]
    rfl
  · refine strContains_intro ("Authentication required for '" ++ server.name ++ "'. ")
      " to your config." _ _ ?_
    unfold authRequiredMessage
    rw [show ("'. Add apiKey to your config." : String)
        = "'. " ++ "Add apiKey" ++ " to your config." from rfl]
    simp only [String.append_assoc]
  · exact strContains_intro "Authentication required for '"
      "'. Add apiKey to your config." _ _ rfl
  · unfold rewriteAuth
    rw [hs, hc]
    rfl
  · refine strContains_intro ""
      (" for '" ++ server.name ++ "'. Check your configuration.") _ _ ?_
    unfold authFailedMessage
    rw [show ("Invalid API key for '" : String) = "Invalid API key" ++ " for '" from rfl]
    simp only [String.append_assoc]
    rfl
  · exact strContains_intro "Invalid API key for '"
      "'. Check your configuration." _ _ rfl
  · have h1 : (isStrVal (j.getField "status") "error"
        && isStrVal (j.getField "code") "AUTH_REQUIRED") = false := by
      by_contra hx
      rw [Bool.not_eq_false, Bool.and_eq_true] at hx
      exact hn ⟨(isStrVal_iff _ _).mp hx.1, .inl ((isStrVal_iff _ _).mp hx.2)⟩
    have h2 : (isStrVal (j.getField "status") "error"
        && isStrVal (j.getField "code") "AUTH_FAILED") = false := by
      by_contra hx
      rw [Bool.not_eq_false, Bool.and_eq_true] at hx
      exact hn ⟨(isStrVal_iff _ _).mp hx.1, .inr ((isStrVal_iff _ _).mp hx.2)⟩
    unfold rewriteAuth
    rw [h1, h2]
    rfl

theorem C6_auth_rewrite_witness :
    rewriteAuth devServer authReqJson = errorEnvelope (authRequiredMessage "dev") ∧
    rewriteAuth devServer authFailJson = errorEnvelope (authFailedMessage "dev") ∧
    rewriteAuth devServer (.str "hello") = .str "hello" :=
  ⟨((C6_auth_rewrite devServer authReqJson).1 rfl rfl).1,
   ((C6_auth_rewrite devServer authFailJson).2.1 rfl rfl).1,
   (C6_auth_rewrite devServer (.str "hello")).2.2
     (fun hc => Option.noConfusion hc.1)⟩

/-- Claim C7 (corrected) — counterexample to the claim as stated: the
fractional string port `"80.5"` is accepted, because
`parseInt('80.5', 10)` truncates at the decimal point and yields `80`;
the same value given as a number is rejected. -/
theorem C7_counterexample :
    validatePort (.str "80.5") = .valid ∧
    jsParseInt "80.5" = some 80 ∧
    validatePort (.num (161 / 2)) = .invalid "Port must be an integer" :=
  ⟨rfl, rfl, by rw [validatePort_num_eq, if_pos (by norm_num : ¬((161 / 2 : ℚ).den = 1))]⟩

/-- Claim C7 (amended): a number is valid exactly when it is a finite integer
in [1, 65535]; a string is fed through `parseInt(s, 10)`, so it is valid
exactly when its leading decimal-integer prefix exists and lies in
[1, 65535] — trailing characters (including a fractional part) are
ignored; `validatePort 0` and `validatePort 65536` are invalid with the
range message, `validatePort "9999"` is valid, and non-integer numbers,
NaN and non-numeric types each get their distinct field-specific
message. -/
theorem C7_amended :
    (∀ q : ℚ, validatePort (.num q) = .valid ↔ (q.den = 1 ∧ 1 ≤ q ∧ q ≤ 65535)) ∧
    (∀ s : String, validatePort (.str s) = .valid ↔
      (∃ n : Int, jsParseInt s = some n ∧ 1 ≤ n ∧ n ≤ 65535)) ∧
    validatePort (.num 0) = .invalid "Port must be between 1 and 65535" ∧
    validatePort (.num 65536) = .invalid "Port must be between 1 and 65535" ∧
    validatePort (.str "9999") = .valid ∧
    validatePort (.num (161 / 2)) = .invalid "Port must be an integer" ∧
    validatePort .nan = .invalid "Port must be a number" ∧
    validatePort .nonNumber = .invalid "Port must be a number" := by
  refine ⟨validatePort_num_iff, ?_, rfl, rfl, rfl,
    by rw [validatePort_num_eq, if_pos (by norm_num : ¬((161 / 2 : ℚ).den = 1))], rfl, rfl⟩
  intro s
  cases hp : jsParseInt s with
  | none =>
    have ht : toPortNum (.str s) = .nan := by
      simp only [toPortNum]
      rw [hp]
    have he : validatePort (.str s) = .invalid "Port must be a number" := by
      unfold validatePort
      rw [ht]
    rw [he]
    constructor
    · exact fun hbad => ValidationResult.noConfusion hbad
    · rintro ⟨n, hn, -⟩
      exact Option.noConfusion hn
  | some n =>
    have ht : toPortNum (.str s) = .finite (n : ℚ) := by
      simp only [toPortNum]
      rw [hp]
    have he : validatePort (.str s) = validatePort (.num (n : ℚ)) := by
      unfold validatePort
      rw [ht]
      rfl
    rw [he, validatePort_num_iff]
    constructor
    · rintro ⟨-, h1, h2⟩
      exact ⟨n, rfl, by exact_mod_cast h1, by exact_mod_cast h2⟩
    · rintro ⟨m, hm, h1, h2⟩
      cases Option.some.inj hm
      exact ⟨Rat.den_intCast n, by exact_mod_cast h1, by exact_mod_cast h2⟩

theorem C7_amended_witness :
    validatePort (.num 80) = .valid ∧ validatePort (.str "  9999 monkeys") = .valid :=
  ⟨(C7_amended.1 80).mpr ⟨by norm_num, by norm_num, by norm_num⟩,
   (C7_amended.2.1 "  9999 monkeys").mpr ⟨9999, rfl, by norm_num, by norm_num⟩⟩

/-- Claim C8: once the shared gates pass (nonempty, length ≤ 1000, no
dangerous character), `validateSelector` accepts exactly the union of the
three selector shapes and `validateClassName` accepts exactly the
dot-segmented letter-led identifier shape; the listed concrete inputs
behave as required. -/
theorem C8_shape_validators :
    (∀ s : String, 0 < s.length → s.length ≤ 1000 → hasDangerousChar s = false →
      (validateSelector s = .valid ↔
        (matchesUnary s.data = true ∨ matchesBinary s.data = true
          ∨ matchesKeyword s.data = true)) ∧
      (validateClassName s = .valid ↔ matchesIdentifier s.data = true)) ∧
    validateClassName "Core.Object" = .valid ∧
    validateSelector "at:put:" = .valid ∧
    validateSelector "size" = .valid ∧
    validateSelector "+" = .valid ∧
    validateClassName "123Class"
      = .invalid "Class name must start with a letter and contain only letters, digits, or dots" ∧
    validateClassName "Class`whoami`" = .invalid "Class name contains invalid characters" ∧
    validateSelector "Selector"
      = .invalid "Invalid selector format. Must be unary (e.g., size), binary (e.g., +), or keyword (e.g., at:put:)" := by
  refine ⟨?_, rfl, rfl, rfl, rfl, rfl, rfl, rfl⟩
  intro s h0 h1 h2
  constructor
  · have he : validateSelector s =
        if !(matchesUnary s.data || matchesBinary s.data || matchesKeyword s.data) then
          .invalid "Invalid selector format. Must be unary (e.g., size), binary (e.g., +), or keyword (e.g., at:put:)"
        else .valid := by
      unfold validateSelector
      rw [if_neg (by omega : ¬ s.length = 0)]
      rw [if_neg (by simp only [MAX_INPUT_LENGTH]; omega)]
      rw [if_neg (by simp [h2])]
    rw [he]
    by_cases hm : (matchesUnary s.data || matchesBinary s.data || matchesKeyword s.data) = true
    · rw [if_neg (by simp [hm])]
      refine ⟨fun _ => ?_, fun _ => rfl⟩
      simpa [Bool.or_eq_true, or_assoc] using hm
    · have hx : (matchesUnary s.data || matchesBinary s.data || matchesKeyword s.data)
          = false := by
        revert hm
        cases matchesUnary s.data || matchesBinary s.data || matchesKeyword s.data <;> simp
      rw [hx]
      rw [if_pos (show (!false) = true from rfl)]
      constructor
      · exact fun hbad => ValidationResult.noConfusion hbad
      · intro hdisj
        exfalso
        rcases hdisj with h | h | h <;> simp [h] at hx
  · have he : validateClassName s =
        if !matchesIdentifier s.data then
          .invalid "Class name must start with a letter and contain only letters, digits, or dots"
        else .valid := by
      unfold validateClassName
      rw [if_neg (by omega : ¬ s.length = 0)]
      rw [if_neg (by simp only [MAX_INPUT_LENGTH]; omega)]
      rw [if_neg (by simp [h2])]
    rw [he]
    by_cases hm : matchesIdentifier s.data = true
    · rw [if_neg (by simp [hm])]
      exact ⟨fun _ => hm, fun _ => rfl⟩
    · have hx : matchesIdentifier s.data = false := by
        revert hm
        cases matchesIdentifier s.data <;> simp
      rw [hx]
      rw [if_pos (show (!false) = true from rfl)]
      constructor
      · exact fun hbad => ValidationResult.noConfusion hbad
      · exact fun hi => Bool.noConfusion hi

theorem C8_shape_validators_witness :
    validateSelector "at:" = .valid ∧ validateClassName "Kernel.Number" = .valid :=
  ⟨((C8_shape_validators.1 "at:" (by decide) (by decide) rfl).1).mpr (.inr (.inr rfl)),
   ((C8_shape_validators.1 "Kernel.Number" (by decide) (by decide) rfl).2).mpr rfl⟩

/-- Claim C9 (corrected) — counterexample to the claim as stated: the empty
string has length at most 100000 and contains no null byte, yet
`validateSource` rejects it (non-emptiness is a third check the claim
omits). -/
theorem C9_counterexample :
    validateSource "" = .invalid "Source cannot be empty" ∧
    ("" : String).length ≤ 100000 ∧
    ("" : String).data.contains (Char.ofNat 0) = false :=
  ⟨rfl, by decide, rfl⟩

/-- Claim C9 (amended): `validateSource` applies a non-emptiness check, the
100000-character ceiling, and a null-byte check — it returns `valid`
exactly when the string is nonempty, has length at most 100000, and
contains no null byte. -/
theorem C9_amended :
    ∀ s : String, validateSource s = .valid ↔
      (0 < s.length ∧ s.length ≤ 100000 ∧ s.data.contains (Char.ofNat 0) = false) := by
  intro s
  constructor
  · intro h
    unfold validateSource at h
    split at h
    · exact ValidationResult.noConfusion h
    · split at h
      · exact ValidationResult.noConfusion h
      · split at h
        · exact ValidationResult.noConfusion h
        · rename_i hn1 hn2 hn3
          refine ⟨by omega, ?_, by simpa using hn3⟩
          simp only [MAX_SOURCE_LENGTH] at hn2
          omega
  · rintro ⟨h1, h2, h3⟩
    unfold validateSource
    rw [if_neg (by omega)]
    rw [if_neg (by simp only [MAX_SOURCE_LENGTH]; omega)]
    rw [if_neg (by rw [h3]; decide)]

theorem C9_amended_witness :
    validateSource "at: index\n\t^array at: index" = .valid :=
  (C9_amended "at: index\n\t^array at: index").mpr ⟨by decide, by decide, rfl⟩

/-- Claim C10: a falsy `apiKey` — the empty string, or an absent/null key —
produces no `AUTH:` prefix at all: the transmitted line is exactly the
bare command line. -/
theorem C10_falsy_api_key :
    (∀ (server : ResolvedServer) (cmd : String), server.apiKey = some "" →
      commandString server cmd = cmd ++ "\n") ∧
    (∀ (server : ResolvedServer) (cmd : String), server.apiKey = none →
      commandString server cmd = cmd ++ "\n") := by
  constructor
  · intro server cmd h
    unfold commandString
    rw [h]
    simp only [authPrefix, if_pos rfl]
    rfl
  · intro server cmd h
    unfold commandString
    rw [h]
    simp only [authPrefix]
    rfl

theorem C10_falsy_api_key_witness :
    commandString { name := "s", host := "h", port := 1, apiKey := some "" } "PING"
      = "PING" ++ "\n" ∧
    commandString devServer "PING" = "PING" ++ "\n" :=
  ⟨C10_falsy_api_key.1 _ "PING" rfl, C10_falsy_api_key.2 devServer "PING" rfl⟩

end CliBridge
